import Mathlib

/-!
Verification of the web-scraping MCP tool server
(`src/servers/mcp-server-web-python/src/main.py`).

The embedding is shallow: Python exceptions become `Except String`
(carrying `str(e)`), the httpx client and the BeautifulSoup parser —
external collaborators of the program — are supplied through an
environment record `Env`, and the handlers `fetch_url`, `extract_links`,
`extract_text` plus the dispatcher `handle_call_tool` are translated
statement by statement from the source.  HTML documents are modelled as
a node tree (the output of the fault-tolerant parser); the BeautifulSoup
operations the source calls (`get_text(strip=True)`, `soup.title`,
`.string`, `find_all("a", href=True)`, `select`) are implemented over
that tree following their documented semantics.  `urllib.parse.urljoin`
is translated from CPython's `Lib/urllib/parse.py` (restricted to URLs
without `;`-params, which the params-free claims never exercise).
-/

set_option autoImplicit false

/-- JSON-like values: tool-call argument values and the values placed in
the result dictionaries that `json.dumps` serializes. -/
inductive JsonV where
  | str (s : String)
  | num (n : Int)
  | bool (b : Bool)
  | null
  | arr (xs : List JsonV)
  | obj (fs : List (String × JsonV))

/-- Python truthiness (`if selector:`) for the modelled values. -/
def JsonV.truthy : JsonV → Bool
  | .str s => s ≠ ""
  | .num n => n ≠ 0
  | .bool b => b
  | .null => false
  | .arr xs => !xs.isEmpty
  | .obj fs => !fs.isEmpty

/-- A value used where Python needs a `str`; anything else raises
`TypeError` (message abstracted). -/
def JsonV.asStr : JsonV → Except String String
  | .str s => .ok s
  | _ => .error "expected string, got non-string value"

/-- First-match association lookup: Python `dict` access on the argument
mapping (`args.get(k)`) and field lookup in a result dictionary. -/
def getArg (args : List (String × JsonV)) (k : String) : Option JsonV :=
  (args.find? (fun p => p.1 = k)).map (fun p => p.2)

/-- Python `args[k]`: a missing key raises `KeyError(k)`, whose
`str(e)` is the repr of the key, i.e. `"'k'"`. -/
def requireArg (args : List (String × JsonV)) (k : String) : Except String JsonV :=
  match getArg args k with
  | some v => .ok v
  | none => .error ("\x27" ++ k ++ "\x27")

/-- `mcp.types.TextContent`: the `type` discriminator is always the
literal `"text"` in this program. -/
structure TextContent where
  type : String := "text"
  text : String

/-- `mcp.types.CallToolResult`; `isError` defaults to `False`. -/
structure CallToolResult where
  content : List TextContent
  isError : Bool := false

/-- A node of the tree the fault-tolerant HTML parser produces. -/
inductive Node where
  | text (s : String)
  | element (tag : String) (attrs : List (String × String)) (children : List Node)

/-- Attribute lookup on a parsed element (`link["href"]`, `has_attr`). -/
def attrGet (attrs : List (String × String)) (k : String) : Option String :=
  (attrs.find? (fun p => p.1 = k)).map (fun p => p.2)

/-- Python `str.strip()` on the default whitespace set. -/
def pyStrip (s : String) : String :=
  String.mk (((s.toList.dropWhile Char.isWhitespace).reverse.dropWhile
    Char.isWhitespace).reverse)

/-- Concatenation of a list of strings with a separator: Python
`sep.join(pieces)`. -/
def joinSep (sep : String) : List String → String
  | [] => ""
  | [x] => x
  | x :: xs => x ++ sep ++ joinSep sep xs

mutual

/-- All `NavigableString` descendants of a node, in document order
(BeautifulSoup `.strings`). -/
def Node.strings : Node → List String
  | .text s => [s]
  | .element _ _ children => nodeListStrings children

def nodeListStrings : List Node → List String
  | [] => []
  | n :: ns => Node.strings n ++ nodeListStrings ns

end

/-- BeautifulSoup `get_text(strip=True)`: every descendant string is
stripped, whitespace-only strings are dropped, and the rest are joined
with the default empty separator. -/
def Node.getTextStrip (n : Node) : String :=
  joinSep "" ((n.strings.map pyStrip).filter (fun s => s ≠ ""))

/-- `soup.get_text(strip=True)` over the whole parsed document. -/
def docText (d : List Node) : String :=
  joinSep "" (((nodeListStrings d).map pyStrip).filter (fun s => s ≠ ""))

mutual

/-- First element with the given tag, in document (pre-order) traversal:
BeautifulSoup `soup.find(tag)`, hence the `soup.title` property. -/
def Node.findTag : Node → String → Option Node
  | .text _, _ => none
  | .element tag attrs children, t =>
      if tag = t then some (.element tag attrs children)
      else findTagList children t

def findTagList : List Node → String → Option Node
  | [], _ => none
  | n :: ns, t =>
      match n.findTag t with
      | some r => some r
      | none => findTagList ns t

end

/-- BeautifulSoup `Tag.string`: the single `NavigableString` child if
there is exactly one child and it is a string; recursively the single
child tag's `.string` if there is exactly one child and it is a tag;
otherwise `None`. -/
def Node.dotString : Node → Option String
  | .element _ _ [.text s] => some s
  | .element _ _ [.element t a c] => Node.dotString (.element t a c)
  | _ => none

mutual

/-- Document-order list of `(href, get_text(strip=True))` for every
anchor element that carries an `href` attribute:
`soup.find_all("a", href=True)` together with the per-link reads the
source performs.  Anchors without `href` contribute nothing. -/
def Node.anchors : Node → List (String × String)
  | .text _ => []
  | .element tag attrs children =>
      (if tag = "a" then
        match attrGet attrs "href" with
        | some h => [(h, Node.getTextStrip (.element tag attrs children))]
        | none => []
      else []) ++ anchorsList children

def anchorsList : List Node → List (String × String)
  | [] => []
  | n :: ns => n.anchors ++ anchorsList ns

end

mutual

/-- Elements satisfying a compiled selector predicate, collected in
document (pre-order) order: the shape of `soup.select(selector)`
(soupsieve returns matches in document order). -/
def selectNode (p : Node → Bool) : Node → List Node
  | .text _ => []
  | .element tag attrs children =>
      (if p (.element tag attrs children) then [.element tag attrs children]
       else []) ++ selectList p children

def selectList (p : Node → Bool) : List Node → List Node
  | [] => []
  | n :: ns => selectNode p n ++ selectList p ns

end

/-!  Model of `urllib.parse.urljoin`, translated from CPython
`Lib/urllib/parse.py` (`urlsplit`, `urlunsplit`, `urljoin`), restricted
to URLs without `;`-params (for which `urlparse`/`urlunparse` agree with
`urlsplit`/`urlunsplit`).  Empty string stands for an absent component,
as in urllib. -/

/-- Break a character list at the first occurrence of `c`
(Python `str.find` + slicing); `none` when `c` does not occur. -/
def breakAt (c : Char) : List Char → Option (List Char × List Char)
  | [] => none
  | x :: xs =>
      if x = c then some ([], xs)
      else
        match breakAt c xs with
        | some (a, b) => some (x :: a, b)
        | none => none

/-- Characters allowed in a URL scheme after the leading letter. -/
def isSchemeChar (c : Char) : Bool :=
  c.isAlpha || c.isDigit || c = '+' || c = '-' || c = '.'

/-- Scheme detection of `urlsplit`: a `':'` at position `i > 0` with a
leading ASCII letter and only scheme characters before it. -/
def splitScheme (url : List Char) : Option (List Char × List Char) :=
  match breakAt ':' url with
  | some (before, after) =>
      match before with
      | [] => none
      | c :: rest =>
          if c.isAlpha && rest.all isSchemeChar then some (before, after)
          else none
  | none => none

/-- `_splitnetloc`: the netloc runs up to the first `'/'`, `'?'` or
`'#'`. -/
def spanNetloc : List Char → List Char × List Char
  | [] => ([], [])
  | c :: cs =>
      if c = '/' || c = '?' || c = '#' then ([], c :: cs)
      else
        let (a, b) := spanNetloc cs
        (c :: a, b)

/-- Python `str.lower()` restricted to the ASCII scheme characters. -/
def lowerStr (s : String) : String :=
  String.mk (s.toList.map Char.toLower)

/-- Python `s.startswith(c)` for a single character (`url[:1] == '/'`,
`path[:1] == '/'`). -/
def headIs (c : Char) (s : String) : Bool :=
  match s.toList with
  | x :: _ => x = c
  | [] => false

/-- The five components of `urlsplit` (no `;`-params). -/
structure SplitUrl where
  scheme : String
  netloc : String
  path : String
  query : String
  fragment : String

/-- CPython `urlsplit(url, scheme=default)`: scheme (lower-cased when
found in the url), then `//netloc`, then fragment, then query. -/
def urlsplitD (urlStr : String) (defaultScheme : String) : SplitUrl :=
  let url0 := urlStr.toList
  let (scheme, url1) :=
    match splitScheme url0 with
    | some (s, rest) => (lowerStr (String.mk s), rest)
    | none => (defaultScheme, url0)
  let (netloc, url2) :=
    match url1 with
    | '/' :: '/' :: rest =>
        let (n, r) := spanNetloc rest
        (String.mk n, r)
    | _ => ("", url1)
  let (url3, fragment) :=
    match breakAt '#' url2 with
    | some (a, b) => (a, String.mk b)
    | none => (url2, "")
  let (path, query) :=
    match breakAt '?' url3 with
    | some (a, b) => (String.mk a, String.mk b)
    | none => (String.mk url3, "")
  { scheme := scheme, netloc := netloc, path := path, query := query,
    fragment := fragment }

/-- CPython `urlunsplit`. -/
def urlunsplit (u : SplitUrl) : String :=
  let url0 := u.path
  let url1 :=
    if u.netloc ≠ "" ∨ (url0 ≠ "" ∧ url0.toList.take 2 = ['/', '/']) then
      let p := if url0 ≠ "" ∧ headIs '/' url0 = false then "/" ++ url0 else url0
      "//" ++ u.netloc ++ p
    else url0
  let url2 := if u.scheme ≠ "" then u.scheme ++ ":" ++ url1 else url1
  let url3 := if u.query ≠ "" then url2 ++ "?" ++ u.query else url2
  if u.fragment ≠ "" then url3 ++ "#" ++ u.fragment else url3

/-- Schemes for which urllib applies relative resolution. -/
def usesRelative : List String :=
  ["", "ftp", "http", "gopher", "nntp", "imap", "wais", "file", "https",
   "shttp", "mms", "prospero", "rtsp", "rtspu", "sftp", "svn", "svn+ssh",
   "ws", "wss"]

/-- Schemes for which urllib carries the netloc over from the base. -/
def usesNetloc : List String :=
  ["", "ftp", "http", "gopher", "nntp", "telnet", "imap", "wais", "file",
   "mms", "https", "shttp", "snews", "prospero", "rtsp", "rtspu", "rsync",
   "svn", "svn+ssh", "sftp", "nfs", "git", "git+ssh", "ws", "wss"]

/-- Python `str.split(sep)` for a single-character separator
(`bpath.split('/')`); the empty string splits to `[""]`. -/
def splitOnChar (c : Char) : List Char → List String
  | [] => [""]
  | x :: xs =>
      if x = c then "" :: splitOnChar c xs
      else
        match splitOnChar c xs with
        | [] => [String.mk [x]]
        | p :: ps => (String.mk [x] ++ p) :: ps

/-- The slice assignment `segments[1:-1] = filter(None, segments[1:-1])`
of `urljoin`: drop empty segments, keeping the last element. -/
def filterInner : List String → List String
  | [] => []
  | [x] => [x]
  | x :: xs => if x = "" then filterInner xs else x :: filterInner xs

/-- Dot-segment resolution loop of `urljoin` (`'..'` pops, `'.'` is
skipped, a pop on an empty stack is ignored). -/
def resolveSegs (segs : List String) : List String :=
  segs.foldl
    (fun acc seg =>
      if seg = ".." then acc.dropLast
      else if seg = "." then acc
      else acc ++ [seg]) []

/-- CPython `urljoin(base, url)` for `;`-param-free URLs. -/
def urljoin (base url : String) : String :=
  if base = "" then url
  else if url = "" then base
  else
    let b := urlsplitD base ""
    let r := urlsplitD url b.scheme
    if r.scheme ≠ b.scheme ∨ ¬ usesRelative.contains r.scheme then url
    else if usesNetloc.contains r.scheme ∧ r.netloc ≠ "" then urlunsplit r
    else
      let netloc :=
        if r.netloc = "" ∧ usesNetloc.contains r.scheme then b.netloc
        else r.netloc
      if r.path = "" then
        let query := if r.query = "" then b.query else r.query
        urlunsplit { scheme := r.scheme, netloc := netloc, path := b.path,
                     query := query, fragment := r.fragment }
      else
        let baseParts := splitOnChar '/' b.path.toList
        let baseParts :=
          if baseParts.getLast? ≠ some "" then baseParts.dropLast
          else baseParts
        let refParts := splitOnChar '/' r.path.toList
        let segments :=
          if headIs '/' r.path then refParts
          else
            match baseParts ++ refParts with
            | [] => []
            | x :: xs => x :: filterInner xs
        let resolved := resolveSegs segments
        let resolved :=
          if segments.getLast? = some "." ∨ segments.getLast? = some ".." then
            resolved ++ [""]
          else resolved
        let joined := joinSep "/" resolved
        let path := if joined = "" then "/" else joined
        urlunsplit { scheme := r.scheme, netloc := netloc, path := path,
                     query := r.query, fragment := r.fragment }

/-!  HTTP layer and environment. -/

/-- The timeout the handler configures on the httpx client:
`AsyncClient(timeout=t)` for `fetch_url`, the bare `AsyncClient()`
(library default) for `extract_links`. -/
inductive Timeout where
  | clientDefault
  | explicit (v : JsonV)

/-- The single GET request a handler issues: `client.get(url)` on a
client configured with `timeout`.  The url is the raw argument value
(a non-string url is rejected inside the client, i.e. by `net`). -/
structure Request where
  url : JsonV
  timeout : Timeout

/-- The httpx response: resolved final URL (`str(response.url)`),
status code, headers and decoded body text. -/
structure Response where
  url : String
  statusCode : Nat
  headers : List (String × String)
  text : String

/-- `response.headers.get("content-type", "")` (header names are stored
lower-cased, as httpx normalizes them). -/
def Response.contentTypeHdr (r : Response) : String :=
  ((r.headers.find? (fun p => p.1 = "content-type")).map (fun p => p.2)).getD ""

/-- httpx `response.raise_for_status()`: succeeds exactly on a 2xx
status, raises `HTTPStatusError` otherwise (message abstracted to the
status code). -/
def raiseForStatus (r : Response) : Except String Unit :=
  if 200 ≤ r.statusCode ∧ r.statusCode < 300 then .ok ()
  else .error ("HTTP status error for status code " ++ toString r.statusCode)

/-- Python `sub in s` substring test. -/
def listContainsSub (sub : List Char) : List Char → Bool
  | [] => sub.isEmpty
  | c :: xs => sub.isPrefixOf (c :: xs) || listContainsSub sub xs

/-- Python `"text/html" in content_type`. -/
def strContains (s sub : String) : Bool :=
  listContainsSub sub.toList s.toList

/-- External collaborators of the program: the network (httpx GET,
returning a response or raising), the fault-tolerant HTML parser
(`BeautifulSoup(text, "html.parser")`) and the CSS-selector compiler
(soupsieve; a malformed selector raises, a well-formed one denotes a
predicate on elements). -/
structure Env where
  net : Request → Except String Response
  parse : String → List Node
  cssCompile : String → Except String (Node → Bool)

/-!  `json.dumps` model.  The two structured tools serialize their
result with `json.dumps(result, indent=2)`; the claims never inspect
the whitespace layout, so the model emits the canonical compact form
(same key order, same escaping of the delimiter characters). -/

/-- Escape a string for the JSON serialization model. -/
def jsonEscape (s : String) : String :=
  String.mk (s.toList.flatMap (fun c =>
    if c = '"' then ['\\', '"']
    else if c = '\\' then ['\\', '\\']
    else if c = '\n' then ['\\', 'n']
    else if c = '\t' then ['\\', 't']
    else if c = '\r' then ['\\', 'r']
    else [c]))

mutual

/-- Serialization of one value (model of `json.dumps`). -/
def jsonDump : JsonV → String
  | .str s => "\"" ++ jsonEscape s ++ "\""
  | .num n => toString n
  | .bool b => if b then "true" else "false"
  | .null => "null"
  | .arr xs => "[" ++ jsonDumpList xs ++ "]"
  | .obj fs => "\x7b" ++ jsonDumpFields fs ++ "\x7d"

def jsonDumpList : List JsonV → String
  | [] => ""
  | [x] => jsonDump x
  | x :: xs => jsonDump x ++ ", " ++ jsonDumpList xs

def jsonDumpFields : List (String × JsonV) → String
  | [] => ""
  | [f] => "\"" ++ jsonEscape f.1 ++ "\": " ++ jsonDump f.2
  | f :: fs => "\"" ++ jsonEscape f.1 ++ "\": " ++ jsonDump f.2 ++ ", " ++ jsonDumpFields fs

end

/-!  The three tool handlers, translated line by line from
`main.py`. -/

/-- The first two statements of `fetch_url` (`url = args["url"]`,
`timeout = args.get("timeout", 30)`) and the client configuration:
the GET it issues carries the caller-supplied timeout, default `30`. -/
def fetchUrlRequest (args : List (String × JsonV)) : Except String Request :=
  match requireArg args "url" with
  | .error e => .error e
  | .ok url =>
      .ok { url := url, timeout := .explicit ((getArg args "timeout").getD (JsonV.num 30)) }

/-- The result dictionary `fetch_url` builds (before `json.dumps`):
lines 114-140 of `main.py`. -/
def fetchUrlResult (env : Env) (args : List (String × JsonV)) :
    Except String (List (String × JsonV)) :=
  match fetchUrlRequest args with
  | .error e => .error e
  | .ok req =>
      match env.net req with
      | .error e => .error e
      | .ok response =>
          match raiseForStatus response with
          | .error e => .error e
          | .ok _ =>
              let contentType := response.contentTypeHdr
              if strContains contentType "text/html" then
                let soup := env.parse response.text
                let title : JsonV :=
                  match findTagList soup "title" with
                  | some t =>
                      match t.dotString with
                      | some s => .str s
                      | none => .null
                  | none => .str "No title"
                .ok [("url", .str response.url),
                     ("status_code", .num response.statusCode),
                     ("content_type", .str contentType),
                     ("title", title),
                     ("content", .str response.text),
                     ("text_content",
                      .str (String.mk ((docText soup).toList.take 1000) ++ "..."))]
              else
                .ok [("url", .str response.url),
                     ("status_code", .num response.statusCode),
                     ("content_type", .str contentType),
                     ("content", .str response.text)]

/-- `fetch_url` handler: result dictionary serialized into the
`CallToolResult` envelope (`isError` left at its `False` default). -/
def fetchUrl (env : Env) (args : List (String × JsonV)) : Except String CallToolResult :=
  match fetchUrlResult env args with
  | .error e => .error e
  | .ok result => .ok { content := [{ text := jsonDump (JsonV.obj result) }] }

/-- The first statement of `extract_links` (`url = args["url"]`) and its
client configuration: a bare `AsyncClient()` — the GET uses the client
default timeout; no timeout argument is read. -/
def extractLinksRequest (args : List (String × JsonV)) : Except String Request :=
  match requireArg args "url" with
  | .error e => .error e
  | .ok url => .ok { url := url, timeout := .clientDefault }

/-- The `for link in soup.find_all("a", href=True)` loop body: one
dictionary per anchor, keys in insertion order `text`, `href`,
`absolute_url`; `urljoin(base_url, href)` raises (`TypeError`) inside
the loop when `base_url` is not a string. -/
def buildLinks (baseUrl : JsonV) : List (String × String) → Except String (List JsonV)
  | [] => .ok []
  | a :: rest =>
      match baseUrl.asStr with
      | .error e => .error e
      | .ok b =>
          match buildLinks baseUrl rest with
          | .error e => .error e
          | .ok tail =>
              .ok (JsonV.obj [("text", .str a.2), ("href", .str a.1),
                              ("absolute_url", .str (urljoin b a.1))] :: tail)

/-- The link list `extract_links` builds (before `json.dumps`):
lines 146-164 of `main.py`.  `base_url` defaults to `url` itself. -/
def extractLinksResult (env : Env) (args : List (String × JsonV)) :
    Except String (List JsonV) :=
  match extractLinksRequest args with
  | .error e => .error e
  | .ok req =>
      let baseUrl := (getArg args "base_url").getD req.url
      match env.net req with
      | .error e => .error e
      | .ok response =>
          match raiseForStatus response with
          | .error e => .error e
          | .ok _ =>
              let soup := env.parse response.text
              buildLinks baseUrl (anchorsList soup)

/-- `extract_links` handler: link list serialized into the
`CallToolResult` envelope. -/
def extractLinks (env : Env) (args : List (String × JsonV)) : Except String CallToolResult :=
  match extractLinksResult env args with
  | .error e => .error e
  | .ok links => .ok { content := [{ text := jsonDump (JsonV.arr links) }] }

/-- The text `extract_text` computes: lines 170-180 of `main.py`.
`html = args["html"]` (KeyError when missing), `selector =
args.get("selector")`; a falsy selector (absent, `None`, empty string)
takes the whole-document branch, a truthy one is compiled and the
matches' stripped texts are joined with newlines. -/
def extractTextResult (env : Env) (args : List (String × JsonV)) : Except String String :=
  match requireArg args "html" with
  | .error e => .error e
  | .ok html =>
      let selector := getArg args "selector"
      match html.asStr with
      | .error e => .error e
      | .ok h =>
          let soup := env.parse h
          match selector with
          | some sel =>
              if sel.truthy then
                match sel.asStr with
                | .error e => .error e
                | .ok s =>
                    match env.cssCompile s with
                    | .error e => .error e
                    | .ok p =>
                        .ok (joinSep "\n" ((selectList p soup).map Node.getTextStrip))
              else .ok (docText soup)
          | none => .ok (docText soup)

/-- `extract_text` handler: the raw text in the `CallToolResult`
envelope, no JSON wrapping. -/
def extractText (env : Env) (args : List (String × JsonV)) : Except String CallToolResult :=
  match extractTextResult env args with
  | .error e => .error e
  | .ok text => .ok { content := [{ text := text }] }

/-- The body of the `try` block of `handle_call_tool`: name-based
dispatch; an unknown name raises `ValueError(f"Unknown tool: ...")`. -/
def dispatchTool (env : Env) (name : String) (args : List (String × JsonV)) :
    Except String CallToolResult :=
  if name = "fetch_url" then fetchUrl env args
  else if name = "extract_links" then extractLinks env args
  else if name = "extract_text" then extractText env args
  else .error ("Unknown tool: " ++ name)

/-- `handle_call_tool` (lines 95-112 of `main.py`): `arguments or `\x7b`\x7d`
turns an absent/None mapping into the empty one; every exception from
dispatch or a handler is caught and converted into an error
`CallToolResult` whose single text segment is `"Error: " + str(e)`. -/
def handleCallTool (env : Env) (name : String)
    (arguments : Option (List (String × JsonV))) : CallToolResult :=
  match dispatchTool env name (arguments.getD []) with
  | .ok r => r
  | .error e => { content := [{ text := "Error: " ++ e }], isError := true }

/-!  Concrete environments and documents used by the witnesses and the
counterexample.  Each environment fixes the three external
collaborators at concrete, executable values. -/

/-- An environment in which every external call fails: the network is
unreachable and every selector is rejected. -/
def demoEnv : Env :=
  { net := fun _ => .error "Connection refused",
    parse := fun _ => [],
    cssCompile := fun _ => .error "Invalid selector" }

/-- Parse tree of a page with title `Example` and body text
`Hello World`. -/
def doc2 : List Node :=
  [.element "html" []
    [.element "head" [] [.element "title" [] [.text "Example"]],
     .element "body" [] [.text " Hello World "]]]

/-- A 200 HTML response for that page. -/
def resp2 : Response :=
  { url := "http://example.com/", statusCode := 200,
    headers := [("content-type", "text/html; charset=utf-8")],
    text := "<html>page</html>" }

/-- Environment serving `resp2`, parsed as `doc2`. -/
def env2 : Env :=
  { net := fun _ => .ok resp2, parse := fun _ => doc2,
    cssCompile := fun _ => .error "Invalid selector" }

/-- Parse tree with one anchor carrying `href="/page"` and one anchor
without any `href`. -/
def doc3 : List Node :=
  [.element "body" []
    [.element "a" [("href", "/page")] [.text "Link"],
     .element "a" [] [.text "NoHref"]]]

/-- A 200 HTML response for the link page. -/
def resp3 : Response :=
  { url := "https://example.com/", statusCode := 200,
    headers := [("content-type", "text/html")],
    text := "<a href=/page>Link</a><a>NoHref</a>" }

/-- Environment serving `resp3`, parsed as `doc3`. -/
def env3 : Env :=
  { net := fun _ => .ok resp3, parse := fun _ => doc3,
    cssCompile := fun _ => .error "Invalid selector" }

/-- A 200 JSON (non-HTML) response. -/
def resp6 : Response :=
  { url := "http://api.example.com/data", statusCode := 200,
    headers := [("content-type", "application/json")],
    text := "[1, 2, 3]" }

/-- Environment serving the JSON response. -/
def env6 : Env :=
  { net := fun _ => .ok resp6, parse := fun _ => [],
    cssCompile := fun _ => .error "Invalid selector" }

/-- Parse tree of a page whose `<title>` element holds the text `A`
followed by a `<b>` element — a shape `html.parser` really produces for
`<title>A<b>B</b></title>`, since only `script`/`style` are CDATA
content elements for it.  The title tag has two children, so its
BeautifulSoup `.string` is `None`. -/
def doc7 : List Node :=
  [.element "html" []
    [.element "head" []
      [.element "title" [] [.text "A", .element "b" [] [.text "B"]]]]]

/-- A 200 HTML response for that page. -/
def resp7 : Response :=
  { url := "http://t/", statusCode := 200,
    headers := [("content-type", "text/html")],
    text := "<html><head><title>A<b>B</b></title></head></html>" }

/-- Environment serving `resp7`, parsed as `doc7`. -/
def env7 : Env :=
  { net := fun _ => .ok resp7, parse := fun _ => doc7,
    cssCompile := fun _ => .error "Invalid selector" }

/-- Tag-name selector semantics used by the `extract_text` witness
environment: the compiled predicate of the selector `s` matches the
elements whose tag is `s`. -/
def tagPred (s : String) : Node → Bool := fun n =>
  match n with
  | .element tag _ _ => tag = s
  | .text _ => false

/-- Parse tree with two paragraphs holding `A` and `B`. -/
def doc8 : List Node :=
  [.element "body" []
    [.element "p" [] [.text "A"], .element "p" [] [.text "B"]]]

/-- Environment parsing everything as `doc8` and compiling every
selector as a tag-name predicate. -/
def env8 : Env :=
  { net := fun _ => .error "no network",
    parse := fun _ => doc8,
    cssCompile := fun s => .ok (tagPred s) }

/-!  Claims. -/

/-- Claim C1: for every tool name and argument mapping, any failure
raised during dispatch or by a handler is caught by `handle_call_tool`
and converted into a `CallToolResult` with `isError = true` whose single
text segment is `"Error: "` followed by the failure message, while a
successful dispatch is returned unchanged — no failure crosses the
dispatcher boundary uncaught. -/
theorem callTool_catches_every_failure (env : Env) (name : String)
    (arguments : Option (List (String × JsonV))) :
    (∀ e, dispatchTool env name (arguments.getD []) = .error e →
      handleCallTool env name arguments =
        { content := [{ text := "Error: " ++ e }], isError := true }) ∧
    (∀ r, dispatchTool env name (arguments.getD []) = .ok r →
      handleCallTool env name arguments = r) := by
  constructor
  · intro e he
    simp [handleCallTool, he]
  · intro r hr
    simp [handleCallTool, hr]

/-- Claim C1, witness: a `fetch_url` call against an unreachable host
produces the wrapped network-failure message. -/
theorem callTool_catches_every_failure_witness :
    dispatchTool demoEnv "fetch_url"
        ((some [("url", JsonV.str "http://x")]).getD []) =
      .error "Connection refused" ∧
    handleCallTool demoEnv "fetch_url" (some [("url", JsonV.str "http://x")]) =
      { content := [{ text := "Error: Connection refused" }], isError := true } :=
  ⟨rfl,
   (callTool_catches_every_failure demoEnv "fetch_url"
      (some [("url", JsonV.str "http://x")])).1 "Connection refused" rfl⟩

/-- Claim C4: every tool name other than `fetch_url`, `extract_links`
and `extract_text` yields an error result with message
`"Error: Unknown tool: <name>"`. -/
theorem unknown_tool_error (env : Env) (name : String)
    (arguments : Option (List (String × JsonV)))
    (h1 : name ≠ "fetch_url") (h2 : name ≠ "extract_links")
    (h3 : name ≠ "extract_text") :
    handleCallTool env name arguments =
      { content := [{ text := "Error: Unknown tool: " ++ name }],
        isError := true } := by
  simp only [handleCallTool, dispatchTool, h1, h2, h3, if_false, if_neg]
  rfl

/-- Claim C4, witness: the unknown name `nonexistent` produces exactly
`"Error: Unknown tool: nonexistent"`. -/
theorem unknown_tool_error_witness :
    handleCallTool demoEnv "nonexistent" (some []) =
      { content := [{ text := "Error: Unknown tool: nonexistent" }],
        isError := true } :=
  unknown_tool_error demoEnv "nonexistent" (some [])
    (by decide) (by decide) (by decide)

/-- Claim C5: a call whose argument mapping lacks the required argument
of the named tool returns, for every environment — hence with no fetch
and no parse performed — the error result carrying the `KeyError`
validation message. -/
theorem missing_required_arg_no_partial_execution (env : Env)
    (args : List (String × JsonV)) :
    (getArg args "url" = none →
      handleCallTool env "fetch_url" (some args) =
        { content := [{ text := "Error: \x27url\x27" }], isError := true } ∧
      handleCallTool env "extract_links" (some args) =
        { content := [{ text := "Error: \x27url\x27" }], isError := true }) ∧
    (getArg args "html" = none →
      handleCallTool env "extract_text" (some args) =
        { content := [{ text := "Error: \x27html\x27" }], isError := true }) := by
  constructor
  · intro h
    constructor
    · simp [handleCallTool, dispatchTool, fetchUrl, fetchUrlResult,
        fetchUrlRequest, requireArg, h]
    · simp [handleCallTool, dispatchTool, extractLinks, extractLinksResult,
        extractLinksRequest, requireArg, h]
  · intro h
    simp [handleCallTool, dispatchTool, extractText, extractTextResult,
      requireArg, h]

/-- Claim C5, witness: the empty argument mapping triggers the
missing-argument error for all three tools. -/
theorem missing_required_arg_no_partial_execution_witness :
    getArg [] "url" = none ∧ getArg [] "html" = none ∧
    handleCallTool demoEnv "fetch_url" (some []) =
      { content := [{ text := "Error: \x27url\x27" }], isError := true } ∧
    handleCallTool demoEnv "extract_links" (some []) =
      { content := [{ text := "Error: \x27url\x27" }], isError := true } ∧
    handleCallTool demoEnv "extract_text" (some []) =
      { content := [{ text := "Error: \x27html\x27" }], isError := true } :=
  ⟨rfl, rfl,
   ((missing_required_arg_no_partial_execution demoEnv []).1 rfl).1,
   ((missing_required_arg_no_partial_execution demoEnv []).1 rfl).2,
   (missing_required_arg_no_partial_execution demoEnv []).2 rfl⟩

/-- Claim C9: `fetch_url` issues its GET with the caller-supplied
timeout argument, defaulting to `30` when absent, while `extract_links`
issues its GET with the client-default timeout for every argument
mapping — it reads no timeout argument at all. -/
theorem fetch_timeout_extract_links_client_default
    (args : List (String × JsonV)) (u : JsonV)
    (hu : getArg args "url" = some u) :
    fetchUrlRequest args =
      .ok { url := u,
            timeout := .explicit ((getArg args "timeout").getD (JsonV.num 30)) } ∧
    extractLinksRequest args = .ok { url := u, timeout := .clientDefault } := by
  constructor <;>
    simp [fetchUrlRequest, extractLinksRequest, requireArg, hu]

/-- Claim C9, witness: with an explicit `timeout` of `5`, the `fetch_url`
request carries it while the `extract_links` request still uses the
client default. -/
theorem fetch_timeout_extract_links_client_default_witness :
    getArg [("url", JsonV.str "http://x"), ("timeout", JsonV.num 5)] "url" =
      some (JsonV.str "http://x") ∧
    fetchUrlRequest [("url", JsonV.str "http://x"), ("timeout", JsonV.num 5)] =
      .ok { url := JsonV.str "http://x", timeout := .explicit (JsonV.num 5) } ∧
    extractLinksRequest
        [("url", JsonV.str "http://x"), ("timeout", JsonV.num 5)] =
      .ok { url := JsonV.str "http://x", timeout := .clientDefault } :=
  ⟨rfl,
   (fetch_timeout_extract_links_client_default
      [("url", JsonV.str "http://x"), ("timeout", JsonV.num 5)]
      (JsonV.str "http://x") rfl).1,
   (fetch_timeout_extract_links_client_default
      [("url", JsonV.str "http://x"), ("timeout", JsonV.num 5)]
      (JsonV.str "http://x") rfl).2⟩

/-- Claim C10: a `None`/absent argument mapping is treated exactly like
the empty mapping — dispatch still occurs — and for each of the three
known tools the outcome is the missing-required-argument error result,
not an uncaught fault. -/
theorem none_arguments_behave_like_empty (env : Env) (name : String) :
    handleCallTool env name none = handleCallTool env name (some []) ∧
    handleCallTool env "fetch_url" none =
      { content := [{ text := "Error: \x27url\x27" }], isError := true } ∧
    handleCallTool env "extract_links" none =
      { content := [{ text := "Error: \x27url\x27" }], isError := true } ∧
    handleCallTool env "extract_text" none =
      { content := [{ text := "Error: \x27html\x27" }], isError := true } :=
  ⟨rfl, rfl, rfl, rfl⟩

/-- On a fetched 2xx HTML response the `fetch_url` result dictionary
holds exactly the six documented fields in insertion order. -/
theorem fetchUrlResult_html (env : Env) (args : List (String × JsonV))
    (u : JsonV) (resp : Response)
    (hu : getArg args "url" = some u)
    (hnet : env.net
        { url := u,
          timeout := .explicit ((getArg args "timeout").getD (JsonV.num 30)) } =
      .ok resp)
    (hok : 200 ≤ resp.statusCode ∧ resp.statusCode < 300)
    (hhtml : strContains resp.contentTypeHdr "text/html" = true) :
    fetchUrlResult env args = .ok
      [("url", .str resp.url),
       ("status_code", .num resp.statusCode),
       ("content_type", .str resp.contentTypeHdr),
       ("title",
        match findTagList (env.parse resp.text) "title" with
        | some t =>
            match t.dotString with
            | some s => JsonV.str s
            | none => JsonV.null
        | none => JsonV.str "No title"),
       ("content", .str resp.text),
       ("text_content",
        .str (String.mk ((docText (env.parse resp.text)).toList.take 1000)
          ++ "..."))] := by
  have hreq : fetchUrlRequest args = .ok
      { url := u,
        timeout := .explicit ((getArg args "timeout").getD (JsonV.num 30)) } := by
    simp [fetchUrlRequest, requireArg, hu]
  have hrfs : raiseForStatus resp = .ok () := by
    simp [raiseForStatus, hok.1, hok.2]
  simp only [fetchUrlResult, hreq, hnet, hrfs, hhtml, if_true]

/-- Claim C2: on an HTML response (content type containing
`"text/html"`), the `text_content` field of the `fetch_url` result is
the first 1000 characters of the whitespace-stripped visible text of
the parsed body with the literal suffix `"..."` appended
unconditionally, so it always ends with `"..."` and is at most 1003
characters long. -/
theorem fetch_url_html_text_content (env : Env) (args : List (String × JsonV))
    (u : JsonV) (resp : Response)
    (hu : getArg args "url" = some u)
    (hnet : env.net
        { url := u,
          timeout := .explicit ((getArg args "timeout").getD (JsonV.num 30)) } =
      .ok resp)
    (hok : 200 ≤ resp.statusCode ∧ resp.statusCode < 300)
    (hhtml : strContains resp.contentTypeHdr "text/html" = true) :
    ∃ result, fetchUrlResult env args = .ok result ∧
      getArg result "text_content" =
        some (.str (String.mk ((docText (env.parse resp.text)).toList.take 1000)
          ++ "...")) ∧
      (∃ p, String.mk ((docText (env.parse resp.text)).toList.take 1000)
          ++ "..." = p ++ "...") ∧
      (String.mk ((docText (env.parse resp.text)).toList.take 1000)
          ++ "...").length ≤ 1003 := by
  refine ⟨_, fetchUrlResult_html env args u resp hu hnet hok hhtml, ?_,
    ⟨_, rfl⟩, ?_⟩
  · simp [getArg]
  · have h1 : (String.mk ((docText (env.parse resp.text)).toList.take 1000)
        ++ ("..." : String)).length =
        ((docText (env.parse resp.text)).toList.take 1000).length + 3 := by
      rw [String.length_append]
      rfl
    have h2 : ((docText (env.parse resp.text)).toList.take 1000).length ≤ 1000 :=
      List.length_take_le 1000 _
    omega

/-- Claim C2, witness: the `Example` page's preview is its full stripped
text `ExampleHello World` with the unconditional `"..."` suffix, well
under 1003 characters. -/
theorem fetch_url_html_text_content_witness :
    docText (env2.parse resp2.text) = "ExampleHello World" ∧
    ∃ result,
      fetchUrlResult env2 [("url", JsonV.str "http://example.com")] =
        .ok result ∧
      getArg result "text_content" =
        some (JsonV.str "ExampleHello World...") ∧
      (∃ p, ("ExampleHello World..." : String) = p ++ "...") ∧
      ("ExampleHello World..." : String).length ≤ 1003 :=
  ⟨rfl,
   fetch_url_html_text_content env2 [("url", JsonV.str "http://example.com")]
     (JsonV.str "http://example.com") resp2 rfl rfl (by decide) rfl⟩

/-- Claim C6: on a non-HTML response the `fetch_url` result contains
exactly the resolved URL, status code, content type and raw body, with
no `title` and no `text_content` field. -/
theorem fetch_url_non_html_fields (env : Env) (args : List (String × JsonV))
    (u : JsonV) (resp : Response)
    (hu : getArg args "url" = some u)
    (hnet : env.net
        { url := u,
          timeout := .explicit ((getArg args "timeout").getD (JsonV.num 30)) } =
      .ok resp)
    (hok : 200 ≤ resp.statusCode ∧ resp.statusCode < 300)
    (hn : strContains resp.contentTypeHdr "text/html" = false) :
    fetchUrlResult env args = .ok
      [("url", .str resp.url),
       ("status_code", .num resp.statusCode),
       ("content_type", .str resp.contentTypeHdr),
       ("content", .str resp.text)] ∧
    getArg
      [("url", JsonV.str resp.url),
       ("status_code", JsonV.num resp.statusCode),
       ("content_type", JsonV.str resp.contentTypeHdr),
       ("content", JsonV.str resp.text)] "title" = none ∧
    getArg
      [("url", JsonV.str resp.url),
       ("status_code", JsonV.num resp.statusCode),
       ("content_type", JsonV.str resp.contentTypeHdr),
       ("content", JsonV.str resp.text)] "text_content" = none ∧
    getArg
      [("url", JsonV.str resp.url),
       ("status_code", JsonV.num resp.statusCode),
       ("content_type", JsonV.str resp.contentTypeHdr),
       ("content", JsonV.str resp.text)] "content" =
      some (JsonV.str resp.text) := by
  refine ⟨?_, by simp [getArg], by simp [getArg], by simp [getArg]⟩
  have hreq : fetchUrlRequest args = .ok
      { url := u,
        timeout := .explicit ((getArg args "timeout").getD (JsonV.num 30)) } := by
    simp [fetchUrlRequest, requireArg, hu]
  have hrfs : raiseForStatus resp = .ok () := by
    simp [raiseForStatus, hok.1, hok.2]
  simp [fetchUrlResult, hreq, hnet, hrfs, hn]

/-- Claim C6, witness: a 200 `application/json` response yields exactly
the four fields, `content` holding the raw body. -/
theorem fetch_url_non_html_fields_witness :
    strContains resp6.contentTypeHdr "text/html" = false ∧
    fetchUrlResult env6 [("url", JsonV.str "http://api.example.com/data")] =
      .ok [("url", JsonV.str "http://api.example.com/data"),
           ("status_code", JsonV.num 200),
           ("content_type", JsonV.str "application/json"),
           ("content", JsonV.str "[1, 2, 3]")] ∧
    getArg
      [("url", JsonV.str "http://api.example.com/data"),
       ("status_code", JsonV.num 200),
       ("content_type", JsonV.str "application/json"),
       ("content", JsonV.str "[1, 2, 3]")] "title" = none :=
  ⟨rfl,
   (fetch_url_non_html_fields env6
      [("url", JsonV.str "http://api.example.com/data")]
      (JsonV.str "http://api.example.com/data") resp6 rfl rfl
      (by decide) rfl).1,
   (fetch_url_non_html_fields env6
      [("url", JsonV.str "http://api.example.com/data")]
      (JsonV.str "http://api.example.com/data") resp6 rfl rfl
      (by decide) rfl).2.1⟩

/-- Claim C7, counterexample: a 200 HTML page whose `<title>` element is
`<title>A<b>B</b></title>` — a tree `html.parser` really produces, since
for it only `script`/`style` are CDATA content elements.  The title
element exists and its whitespace-stripped text is `"AB"`, yet the
`title` field of the result is JSON `null`: the source computes
`soup.title.string`, which is `None` for a title tag with more than one
child, so the field is neither the element's text nor `"No title"`. -/
theorem fetch_url_title_counterexample :
    (∃ t, findTagList doc7 "title" = some t ∧ Node.getTextStrip t = "AB") ∧
    fetchUrlResult env7 [("url", JsonV.str "http://t")] = .ok
      [("url", JsonV.str "http://t/"),
       ("status_code", JsonV.num 200),
       ("content_type", JsonV.str "text/html"),
       ("title", JsonV.null),
       ("content",
        JsonV.str "<html><head><title>A<b>B</b></title></head></html>"),
       ("text_content", JsonV.str "AB...")] ∧
    JsonV.null ≠ JsonV.str "AB" ∧
    JsonV.null ≠ JsonV.str "" ∧
    JsonV.null ≠ JsonV.str "No title" :=
  ⟨⟨Node.element "title" [] [Node.text "A", Node.element "b" [] [Node.text "B"]],
    rfl, rfl⟩,
   rfl,
   fun h => JsonV.noConfusion h,
   fun h => JsonV.noConfusion h,
   fun h => JsonV.noConfusion h⟩

/-- Claim C7 (amended): on an HTML response the `title` field is
`soup.title.string`-based: the element's string when the first `<title>`
element has a single text child, the literal `"No title"` when the
document has no `<title>` element, and JSON `null` when a `<title>`
element exists but has no single string child (e.g. it is empty or
contains nested markup). -/
theorem fetch_url_title_amended (env : Env) (args : List (String × JsonV))
    (u : JsonV) (resp : Response)
    (hu : getArg args "url" = some u)
    (hnet : env.net
        { url := u,
          timeout := .explicit ((getArg args "timeout").getD (JsonV.num 30)) } =
      .ok resp)
    (hok : 200 ≤ resp.statusCode ∧ resp.statusCode < 300)
    (hhtml : strContains resp.contentTypeHdr "text/html" = true) :
    ∃ result, fetchUrlResult env args = .ok result ∧
      (findTagList (env.parse resp.text) "title" = none →
        getArg result "title" = some (JsonV.str "No title")) ∧
      (∀ t s, findTagList (env.parse resp.text) "title" = some t →
        t.dotString = some s → getArg result "title" = some (JsonV.str s)) ∧
      (∀ t, findTagList (env.parse resp.text) "title" = some t →
        t.dotString = none → getArg result "title" = some JsonV.null) := by
  refine ⟨_, fetchUrlResult_html env args u resp hu hnet hok hhtml, ?_, ?_, ?_⟩
  · intro h
    simp [getArg, h]
  · intro t s ht hs
    simp [getArg, ht, hs]
  · intro t ht hs
    simp [getArg, ht, hs]

/-- Claim C7 (amended), witness: a page whose `<title>` holds the single
string `Example` gets `title = "Example"`. -/
theorem fetch_url_title_amended_witness :
    findTagList (env2.parse resp2.text) "title" =
      some (Node.element "title" [] [Node.text "Example"]) ∧
    Node.dotString (Node.element "title" [] [Node.text "Example"]) =
      some "Example" ∧
    ∃ result,
      fetchUrlResult env2 [("url", JsonV.str "http://example.com")] =
        .ok result ∧
      getArg result "title" = some (JsonV.str "Example") := by
  refine ⟨rfl, rfl, ?_⟩
  obtain ⟨result, hres, -, hsome, -⟩ :=
    fetch_url_title_amended env2 [("url", JsonV.str "http://example.com")]
      (JsonV.str "http://example.com") resp2 rfl rfl (by decide) rfl
  exact ⟨result, hres, hsome _ _ rfl rfl⟩

/-- With a string base URL, the link loop succeeds and produces one
record per collected anchor, in order. -/
theorem buildLinks_str (b : String) (l : List (String × String)) :
    buildLinks (JsonV.str b) l =
      .ok (l.map (fun a =>
        JsonV.obj [("text", JsonV.str a.2), ("href", JsonV.str a.1),
                   ("absolute_url", JsonV.str (urljoin b a.1))])) := by
  induction l with
  | nil => rfl
  | cons a rest ih => simp [buildLinks, JsonV.asStr, ih]

/-- Claim C3: on fetched HTML, `extract_links` returns, in document
order, exactly one record per anchor element carrying an `href`
attribute (anchors without `href` yield no record), whose `href` is the
raw attribute value, whose `text` is the anchor's whitespace-stripped
text, and whose `absolute_url` is the href resolved against the base
URL (defaulting to the fetched url) by standard relative-URL joining. -/
theorem extract_links_records (env : Env) (args : List (String × JsonV))
    (u : JsonV) (b : String) (resp : Response)
    (hu : getArg args "url" = some u)
    (hb : (getArg args "base_url").getD u = JsonV.str b)
    (hnet : env.net { url := u, timeout := .clientDefault } = .ok resp)
    (hok : 200 ≤ resp.statusCode ∧ resp.statusCode < 300) :
    extractLinksResult env args =
      .ok ((anchorsList (env.parse resp.text)).map (fun a =>
        JsonV.obj [("text", JsonV.str a.2), ("href", JsonV.str a.1),
                   ("absolute_url", JsonV.str (urljoin b a.1))])) := by
  have hreq : extractLinksRequest args =
      .ok { url := u, timeout := .clientDefault } := by
    simp [extractLinksRequest, requireArg, hu]
  have hrfs : raiseForStatus resp = .ok () := by
    simp [raiseForStatus, hok.1, hok.2]
  simp only [extractLinksResult, hreq, hnet, hrfs, hb, buildLinks_str]

/-- Claim C3, witness: on a page with `<a href="/page">Link</a>` and an
href-less anchor, with base `https://example.com` (defaulted from the
url argument), exactly one record is produced and its `absolute_url` is
`https://example.com/page`. -/
theorem extract_links_records_witness :
    anchorsList doc3 = [("/page", "Link")] ∧
    urljoin "https://example.com" "/page" = "https://example.com/page" ∧
    extractLinksResult env3 [("url", JsonV.str "https://example.com")] =
      .ok [JsonV.obj [("text", JsonV.str "Link"),
                      ("href", JsonV.str "/page"),
                      ("absolute_url", JsonV.str "https://example.com/page")]] :=
  ⟨rfl, rfl,
   (extract_links_records env3 [("url", JsonV.str "https://example.com")]
      (JsonV.str "https://example.com") "https://example.com" resp3
      rfl rfl rfl (by decide)).trans rfl⟩

/-- Claim C8: when `extract_text` is given a (truthy, well-formed)
selector, the returned text is the newline-joined whitespace-stripped
text of the matching elements in document order, and an empty match set
yields the empty string in a non-error result. -/
theorem extract_text_selector_join (env : Env) (args : List (String × JsonV))
    (h s : String) (p : Node → Bool)
    (hh : getArg args "html" = some (JsonV.str h))
    (hs : getArg args "selector" = some (JsonV.str s))
    (hne : s ≠ "")
    (hp : env.cssCompile s = .ok p) :
    extractTextResult env args =
      .ok (joinSep "\n" ((selectList p (env.parse h)).map Node.getTextStrip)) ∧
    (selectList p (env.parse h) = [] →
      extractText env args = .ok { content := [{ text := "" }], isError := false }) := by
  have hmain : extractTextResult env args =
      .ok (joinSep "\n" ((selectList p (env.parse h)).map Node.getTextStrip)) := by
    simp [extractTextResult, requireArg, hh, hs, JsonV.asStr, JsonV.truthy,
      hne, hp]
  refine ⟨hmain, fun hempty => ?_⟩
  simp [extractText, hmain, hempty, joinSep]

/-- Claim C8, witness: selector `p` on a two-paragraph page returns
`"A\nB"`; selector `div` matches nothing and returns the empty string
with `isError = false`. -/
theorem extract_text_selector_join_witness :
    env8.cssCompile "p" = .ok (tagPred "p") ∧
    extractTextResult env8
        [("html", JsonV.str "<p>A</p><p>B</p>"), ("selector", JsonV.str "p")] =
      .ok "A\nB" ∧
    selectList (tagPred "div") doc8 = [] ∧
    extractText env8
        [("html", JsonV.str "<p>A</p><p>B</p>"), ("selector", JsonV.str "div")] =
      .ok { content := [{ text := "" }], isError := false } := by
  refine ⟨rfl, ?_, rfl, ?_⟩
  · exact (extract_text_selector_join env8
      [("html", JsonV.str "<p>A</p><p>B</p>"), ("selector", JsonV.str "p")]
      "<p>A</p><p>B</p>" "p" (tagPred "p") rfl rfl (by decide) rfl).1.trans rfl
  · exact (extract_text_selector_join env8
      [("html", JsonV.str "<p>A</p><p>B</p>"), ("selector", JsonV.str "div")]
      "<p>A</p><p>B</p>" "div" (tagPred "div") rfl rfl (by decide) rfl).2 rfl
